import Mathlib

/-!
Shallow embedding of the commercial trucking insurance rating engine
(`shared/insurance.ts` data model and the quote route's rating functions:
`scoreDriverRisk`, `rateAutoLiabilityForDriver`, `rateVehicleLines`,
`buildRiskMatrix`, `quoteSubmission`).

JavaScript numbers are modelled as exact rationals (ℚ); premiums after
`Math.round` are integers (ℤ).  `Math.round` rounds half toward +∞, i.e.
`⌊x + 1/2⌋`.  JavaScript object literals / `Record<string, number>` factor
maps are modelled as insertion-ordered association lists; the ES `Map` used
for aggregation is modelled as an insertion-ordered association list whose
`set` updates in place when the key is present and appends otherwise.
The fresh `randomUUID()` is modelled as an explicit `quoteId` parameter.
-/

namespace InsuranceRater

/-- JS `Math.round`: round half toward positive infinity. -/
def mathRound (q : ℚ) : ℤ := ⌊q + 1/2⌋

/-- `clamp(value, min, max) = Math.max(min, Math.min(max, value))`. -/
def clamp (value min max : ℚ) : ℚ := Max.max min (Min.min max value)

/-- Driver input (schema `DriverSchema`): age is an integer, history counts
and CDL years are non-negative integers. -/
structure Driver where
  id : String
  name : String
  age : ℤ
  violations : ℕ
  accidents : ℕ
  priorClaims : ℕ
  yearsCdl : ℕ
deriving DecidableEq

inductive VehicleType where
  | Tractor | BoxTruck | Pickup | Sedan | SUV | Van
deriving DecidableEq

/-- Vehicle input (schema `VehicleSchema`). -/
structure Vehicle where
  id : String
  vin : Option String := none
  year : Option ℤ := none
  make : Option String := none
  model : Option String := none
  vehicleType : VehicleType
  vehicleAge : ℤ
  gvw : ℚ
  radiusMiles : ℚ
deriving DecidableEq

inductive TrailerType where
  | DryVan | Reefer | Flatbed | Tanker | StepDeck | Lowboy | Container
deriving DecidableEq

/-- Trailer input (schema `TrailerSchema`). -/
structure Trailer where
  id : String
  trailerType : TrailerType
  trailerAge : ℤ
  refrigerated : Bool
deriving DecidableEq

/-- Coverage selections (schema `CoverageSelectionSchema`). -/
structure CoverageSelection where
  autoLiabilityLimit : ℚ
  autoLiabilityDeductible : ℚ
  generalLiabilityLimit : ℚ
  generalLiabilityDeductible : ℚ
  cargoLimitPerVehicle : ℚ
  cargoDeductible : ℚ
  reeferCoverage : Bool
  reeferLimitPerVehicle : ℚ
  reeferDeductible : ℚ
  trailerInterchange : Bool
  trailerInterchangeLimit : ℚ
  trailerInterchangeDeductible : ℚ
deriving DecidableEq

inductive SafetyProgram where
  | ELD | Dashcams | DriverTraining | Telematics
deriving DecidableEq

/-- Company input (schema `CompanySchema`). -/
structure Company where
  name : String
  naics : Option String := none
  fein : Option String := none
  addressState : String
  yearsInBusiness : ℕ
  emr : ℚ
  safetyPrograms : List SafetyProgram
deriving DecidableEq

inductive CargoType where
  | General | Refrigerated | Hazmat | HighValue
deriving DecidableEq

structure OperationalFactors where
  avgMilesPerYearPerUnit : ℚ
  geographicRisk : ℚ
  cargoTypeMix : List CargoType
deriving DecidableEq

/-- Full submission (schema `SubmissionSchema`). -/
structure Submission where
  company : Company
  drivers : List Driver
  vehicles : List Vehicle
  trailers : List Trailer
  coverages : CoverageSelection
  operationalFactors : OperationalFactors
deriving DecidableEq

inductive LineOfBusiness where
  | AutoLiability | GeneralLiability | MotorTruckCargo | ReeferBreakdown | TrailerInterchange
deriving DecidableEq

/-- `Record<string, number>` factor map, in insertion order. -/
abbrev Factors := List (String × ℚ)

structure LinePremiumBreakdown where
  line : LineOfBusiness
  premium : ℤ
  baseRate : ℚ
  factors : Factors
deriving DecidableEq

structure DriverPremiumDetail where
  driverId : String
  driverName : String
  riskScore : ℚ
  premium : ℤ
  factors : Factors
deriving DecidableEq

structure VehiclePremiumDetail where
  vehicleId : String
  lines : List LinePremiumBreakdown
deriving DecidableEq

structure RiskMatrixCell where
  category : String
  frequency : ℚ
  severity : ℚ
  score : ℚ
deriving DecidableEq

inductive RiskTier where
  | Low | Moderate | High | Severe
deriving DecidableEq

structure RiskMatrixResult where
  cells : List RiskMatrixCell
  overallScore : ℚ
  riskTier : RiskTier
deriving DecidableEq

structure QuoteResult where
  quoteId : String
  companyName : String
  perDriver : List DriverPremiumDetail
  perVehicle : List VehiclePremiumDetail
  lines : List LinePremiumBreakdown
  totalPremium : ℤ
  riskMatrix : RiskMatrixResult
deriving DecidableEq

/-- `scoreDriverRisk`: additive risk score from base 50 with a named
multiplicative factor recorded for every adjustment that fires; the score is
clamped to [0,100] at the end. -/
def scoreDriverRisk (driver : Driver) : ℚ × Factors :=
  let score : ℚ := 50
  let factors : Factors := []
  -- Age
  let (score, factors) :=
    if driver.age < 25 then (score + 15, factors ++ [("age_lt_25", (1.3 : ℚ))])
    else if driver.age > 65 then (score + 8, factors ++ [("age_gt_65", (1.15 : ℚ))])
    else if 25 ≤ driver.age ∧ driver.age ≤ 50 then (score - 5, factors ++ [("age_25_50", (0.9 : ℚ))])
    else (score, factors)
  -- Experience (CDL years)
  let (score, factors) :=
    if 5 ≤ driver.yearsCdl then (score - 5, factors ++ [("cdl_5_plus", (0.92 : ℚ))])
    else if driver.yearsCdl ≤ 1 then (score + 8, factors ++ [("cdl_lt_1", (1.18 : ℚ))])
    else (score, factors)
  -- History
  let score := score + (driver.violations : ℚ) * 10
  let factors := if driver.violations > 0 then
      factors ++ [("violations", 1 + (driver.violations : ℚ) * 0.08)] else factors
  let score := score + (driver.accidents : ℚ) * 15
  let factors := if driver.accidents > 0 then
      factors ++ [("accidents", 1 + (driver.accidents : ℚ) * 0.12)] else factors
  let score := score + (driver.priorClaims : ℚ) * 12
  let factors := if driver.priorClaims > 0 then
      factors ++ [("prior_claims", 1 + (driver.priorClaims : ℚ) * 0.1)] else factors
  -- Normalize
  (clamp score 0 100, factors)

/-- `rateAutoLiabilityForDriver`: score factor `clamp(score/50, 0.6, 2.0)`
multiplied by every recorded driver factor, applied to the base rate. -/
def rateAutoLiabilityForDriver (driver : Driver) (baseRate : ℚ) : ℤ × Factors :=
  let sf := scoreDriverRisk driver
  let scoreFactor := clamp (sf.1 / 50) 0.6 2.0
  let combinedFactor := sf.2.foldl (fun a b => a * b.2) scoreFactor
  let premium := mathRound (baseRate * combinedFactor)
  (premium, ("scoreFactor", scoreFactor) :: sf.2)

/-- `rateVehicleLines`: per-vehicle coverage lines.  AutoLiability and
GeneralLiability always; MotorTruckCargo when a cargo limit is selected;
ReeferBreakdown when reefer coverage is selected and a refrigerated trailer
exists in the supplied (fleet-wide) trailer list; TrailerInterchange when
selected. -/
def rateVehicleLines (vehicle : Vehicle) (trailers : List Trailer)
    (coverages : CoverageSelection) (operational : OperationalFactors) :
    List LinePremiumBreakdown :=
  let autoLiabBase : ℚ := 1500
  let glBase : ℚ := 500
  let cargoBase : ℚ := 400
  let reeferBase : ℚ := 250
  let tiBase : ℚ := 150
  -- Common factors
  let ageFactor : ℚ := 1 + clamp (vehicle.vehicleAge : ℚ) 0 25 * 0.01
  let gvwFactor : ℚ := if vehicle.gvw > 26000 then 1.2 else 1.0
  let radiusFactor : ℚ := if operational.avgMilesPerYearPerUnit > 80000 then 1.15 else 1.0
  let geoFactor : ℚ := operational.geographicRisk
  -- Auto Liability at vehicle level (without driver mix)
  let alFactors : Factors :=
    [("ageFactor", ageFactor), ("gvwFactor", gvwFactor),
     ("radiusFactor", radiusFactor), ("geoFactor", geoFactor)]
  let alPremium := mathRound (autoLiabBase * alFactors.foldl (fun a b => a * b.2) 1)
  let lines : List LinePremiumBreakdown :=
    [⟨LineOfBusiness.AutoLiability, alPremium, autoLiabBase, alFactors⟩]
  -- GL allocation per unit
  let glFactors : Factors := [("radiusFactor", radiusFactor), ("geoFactor", geoFactor)]
  let glPremium := mathRound (glBase * glFactors.foldl (fun a b => a * b.2) 1)
  let lines := lines ++ [⟨LineOfBusiness.GeneralLiability, glPremium, glBase, glFactors⟩]
  -- Cargo if limit > 0
  let lines := if coverages.cargoLimitPerVehicle > 0 then
      let cargoLimitFactor := clamp (coverages.cargoLimitPerVehicle / 100000) 0.5 5
      let cargoFactors : Factors :=
        [("cargoLimitFactor", cargoLimitFactor), ("radiusFactor", radiusFactor), ("geoFactor", geoFactor)]
      let cargoPremium := mathRound (cargoBase * cargoFactors.foldl (fun a b => a * b.2) 1)
      lines ++ [⟨LineOfBusiness.MotorTruckCargo, cargoPremium, cargoBase, cargoFactors⟩]
    else lines
  -- Reefer breakdown if refrigerated trailers exist or selected
  let hasReeferTrailer := trailers.any (fun t => t.refrigerated || decide (t.trailerType = TrailerType.Reefer))
  let lines := if coverages.reeferCoverage && hasReeferTrailer then
      let reeferLimitFactor := clamp (coverages.reeferLimitPerVehicle / 25000) 0.5 4
      let reeferFactors : Factors := [("reeferLimitFactor", reeferLimitFactor), ("geoFactor", geoFactor)]
      let reeferPremium := mathRound (reeferBase * reeferFactors.foldl (fun a b => a * b.2) 1)
      lines ++ [⟨LineOfBusiness.ReeferBreakdown, reeferPremium, reeferBase, reeferFactors⟩]
    else lines
  -- Trailer Interchange
  let lines := if coverages.trailerInterchange then
      let tiLimitFactor := clamp (coverages.trailerInterchangeLimit / 40000) 0.5 3
      let tiFactors : Factors := [("tiLimitFactor", tiLimitFactor), ("geoFactor", geoFactor)]
      let tiPremium := mathRound (tiBase * tiFactors.foldl (fun a b => a * b.2) 1)
      lines ++ [⟨LineOfBusiness.TrailerInterchange, tiPremium, tiBase, tiFactors⟩]
    else lines
  lines

/-- `buildRiskMatrix`: the 3-cell frequency × severity risk matrix. -/
def buildRiskMatrix (submission : Submission) : RiskMatrixResult :=
  let driverBehaviorFreq := clamp
    ((submission.drivers.foldl (fun a d => a + (d.violations : ℚ) + (d.accidents : ℚ)) 0) /
      Max.max 1 (submission.drivers.length : ℚ)) 1 5
  let driverBehaviorSev : ℚ := if submission.drivers.any (fun d => decide (d.accidents ≥ 2)) then 4 else 2
  let equipmentFreq := clamp
    ((submission.vehicles.foldl (fun a v => a + (if v.vehicleAge > 10 then 1 else 0)) 0) /
      Max.max 1 (submission.vehicles.length : ℚ)) 1 5
  let equipmentSev : ℚ := if submission.trailers.any (fun t => decide (t.trailerType = TrailerType.Tanker)) then 5 else 2
  let operationsFreq : ℚ := if submission.operationalFactors.avgMilesPerYearPerUnit > 80000 then 4 else 2
  let operationsSev : ℚ := if CargoType.Hazmat ∈ submission.operationalFactors.cargoTypeMix then 5 else 3
  let cells : List RiskMatrixCell :=
    [⟨"Driver Behavior", driverBehaviorFreq, driverBehaviorSev, driverBehaviorFreq * driverBehaviorSev⟩,
     ⟨"Equipment", equipmentFreq, equipmentSev, equipmentFreq * equipmentSev⟩,
     ⟨"Operations", operationsFreq, operationsSev, operationsFreq * operationsSev⟩]
  let raw := cells.foldl (fun a c => a + c.score) 0
  let overallScore := clamp (raw / (5 * 5 * (cells.length : ℚ)) * 100) 0 100
  let riskTier := if overallScore < 35 then RiskTier.Low
    else if overallScore < 65 then RiskTier.Moderate
    else if overallScore < 85 then RiskTier.High
    else RiskTier.Severe
  ⟨cells, overallScore, riskTier⟩

/-- Aggregation accumulator entry of the ES `Map` in `quoteSubmission`. -/
structure AggEntry where
  premium : ℤ
  baseRate : ℚ
  factors : Factors
deriving DecidableEq

abbrev LineMap := List (LineOfBusiness × AggEntry)

/-- `Map.get`: first (and, by the insertion discipline, only) binding. -/
def mapGet (m : LineMap) (k : LineOfBusiness) : Option AggEntry :=
  (m.find? (fun p => decide (p.1 = k))).map Prod.snd

/-- `Map.set`: update in place when the key is present, append otherwise. -/
def mapSet (m : LineMap) (k : LineOfBusiness) (v : AggEntry) : LineMap :=
  if m.any (fun p => decide (p.1 = k)) then
    m.map (fun p => if p.1 = k then (k, v) else p)
  else m ++ [(k, v)]

/-- One iteration of the aggregation loop body: premiums sum, `baseRate` is
taken from the incoming line, and the factor map is a copy of the previous
accumulator entry's factors (`{ ...prev.factors }`). -/
def aggStep (m : LineMap) (line : LinePremiumBreakdown) : LineMap :=
  let prev := (mapGet m line.line).getD ⟨0, line.baseRate, []⟩
  mapSet m line.line ⟨prev.premium + line.premium, line.baseRate, prev.factors⟩

/-- The nested `for` loops over `perVehicle` and each vehicle's lines. -/
def aggregateLines (perVehicle : List VehiclePremiumDetail) : LineMap :=
  perVehicle.foldl (fun m v => v.lines.foldl aggStep m) []

/-- `quoteSubmission` (validation and HTTP layers stripped): the pure
computation from a validated submission to a quote.  The fresh
`randomUUID()` is passed in as `quoteId`. -/
def quoteSubmission (submission : Submission) (quoteId : String) : QuoteResult :=
  let perDriver : List DriverPremiumDetail := submission.drivers.map (fun driver =>
    let rated := rateAutoLiabilityForDriver driver 800
    let scored := scoreDriverRisk driver
    ⟨driver.id, driver.name, scored.1, rated.1, rated.2⟩)
  let perVehicle : List VehiclePremiumDetail := submission.vehicles.map (fun v =>
    ⟨v.id, rateVehicleLines v submission.trailers submission.coverages submission.operationalFactors⟩)
  -- Aggregate line totals
  let lineTotals := aggregateLines perVehicle
  -- Add driver-based AL portion as separate allocation
  let driverAlTotal := perDriver.foldl (fun a d => a + d.premium) 0
  let lineTotals :=
    match mapGet lineTotals LineOfBusiness.AutoLiability with
    | some alPrev =>
      mapSet lineTotals LineOfBusiness.AutoLiability
        ⟨alPrev.premium + driverAlTotal, alPrev.baseRate, alPrev.factors⟩
    | none =>
      mapSet lineTotals LineOfBusiness.AutoLiability ⟨driverAlTotal, 800, []⟩
  let lines : List LinePremiumBreakdown :=
    lineTotals.map (fun p => ⟨p.1, p.2.premium, p.2.baseRate, p.2.factors⟩)
  let totalPremium := mathRound (lines.foldl (fun a l => a + (l.premium : ℚ)) 0)
  ⟨quoteId, submission.company.name, perDriver, perVehicle, lines, totalPremium,
    buildRiskMatrix submission⟩

end InsuranceRater

namespace InsuranceRater

/-! ### Basic facts about `clamp` and `mathRound` -/

theorem left_le_clamp (value min max : ℚ) : min ≤ clamp value min max := le_max_left _ _

theorem clamp_le_right (value min max : ℚ) (h : min ≤ max) : clamp value min max ≤ max :=
  max_le h (min_le_left _ _)

theorem clamp_eq_left (value min max : ℚ) (h1 : value ≤ min) (h2 : min ≤ max) :
    clamp value min max = min := by
  unfold clamp
  rw [min_eq_right (h1.trans h2), max_eq_left h1]

theorem mathRound_intCast (n : ℤ) : mathRound (n : ℚ) = n := by
  unfold mathRound
  rw [Int.floor_int_add]
  norm_num

/-! ### Closed form of `scoreDriverRisk` -/

set_option maxHeartbeats 1000000 in
theorem scoreDriverRisk_eq (d : Driver) :
    scoreDriverRisk d =
      (clamp (50
          + (if d.age < 25 then 15 else if d.age > 65 then 8
             else if 25 ≤ d.age ∧ d.age ≤ 50 then -5 else 0)
          + (if 5 ≤ d.yearsCdl then -5 else if d.yearsCdl ≤ 1 then 8 else 0)
          + 10 * (d.violations : ℚ) + 15 * (d.accidents : ℚ) + 12 * (d.priorClaims : ℚ)) 0 100,
        (if d.age < 25 then [("age_lt_25", (1.3 : ℚ))]
         else if d.age > 65 then [("age_gt_65", (1.15 : ℚ))]
         else if 25 ≤ d.age ∧ d.age ≤ 50 then [("age_25_50", (0.9 : ℚ))] else [])
        ++ (if 5 ≤ d.yearsCdl then [("cdl_5_plus", (0.92 : ℚ))]
            else if d.yearsCdl ≤ 1 then [("cdl_lt_1", (1.18 : ℚ))] else [])
        ++ (if d.violations > 0 then [("violations", 1 + (d.violations : ℚ) * 0.08)] else [])
        ++ (if d.accidents > 0 then [("accidents", 1 + (d.accidents : ℚ) * 0.12)] else [])
        ++ (if d.priorClaims > 0 then [("prior_claims", 1 + (d.priorClaims : ℚ) * 0.1)] else [])) := by
  unfold scoreDriverRisk
  split_ifs <;> dsimp only <;> simp only [Prod.mk.injEq] <;>
    refine ⟨?_, ?_⟩ <;> first
      | rfl
      | (congr 1; ring)

/-- C5: for every driver, `scoreDriverRisk` returns the clamped additive score
`clamp(50 + ageAdj + cdlAdj + 10·violations + 15·accidents + 12·priorClaims, 0, 100)`
with the age bracket chosen by first match (+15 under 25, +8 over 65, −5 for 25–50),
the CDL adjustment −5 for ≥5 years and +8 for ≤1 year, so the score always lies in
[0,100]; and the factor map holds exactly the named multipliers of the adjustments
that fired, in insertion order. -/
theorem C5_scoreDriverRisk_closed_form (d : Driver) :
    (scoreDriverRisk d).1 = clamp (50
        + (if d.age < 25 then 15 else if d.age > 65 then 8
           else if 25 ≤ d.age ∧ d.age ≤ 50 then -5 else 0)
        + (if 5 ≤ d.yearsCdl then -5 else if d.yearsCdl ≤ 1 then 8 else 0)
        + 10 * (d.violations : ℚ) + 15 * (d.accidents : ℚ) + 12 * (d.priorClaims : ℚ)) 0 100
    ∧ 0 ≤ (scoreDriverRisk d).1 ∧ (scoreDriverRisk d).1 ≤ 100
    ∧ (scoreDriverRisk d).2 =
      (if d.age < 25 then [("age_lt_25", (1.3 : ℚ))]
       else if d.age > 65 then [("age_gt_65", (1.15 : ℚ))]
       else if 25 ≤ d.age ∧ d.age ≤ 50 then [("age_25_50", (0.9 : ℚ))] else [])
      ++ (if 5 ≤ d.yearsCdl then [("cdl_5_plus", (0.92 : ℚ))]
          else if d.yearsCdl ≤ 1 then [("cdl_lt_1", (1.18 : ℚ))] else [])
      ++ (if d.violations > 0 then [("violations", 1 + (d.violations : ℚ) * 0.08)] else [])
      ++ (if d.accidents > 0 then [("accidents", 1 + (d.accidents : ℚ) * 0.12)] else [])
      ++ (if d.priorClaims > 0 then [("prior_claims", 1 + (d.priorClaims : ℚ) * 0.1)] else []) := by
  have h := scoreDriverRisk_eq d
  refine ⟨by rw [h], ?_, ?_, by rw [h]⟩
  · rw [h]; exact left_le_clamp _ _ _
  · rw [h]; exact clamp_le_right _ _ _ (by norm_num)

/-! ### Scenario A: the concrete age-22 driver -/

/-- Spec §8 Scenario A driver: age 22, clean history, no CDL experience. -/
def driverScenarioA : Driver :=
  ⟨"d1", "Scenario A", 22, 0, 0, 0, 0⟩

/-- C2 counterexample: on the Scenario A driver with base rate 800,
`rateAutoLiabilityForDriver` returns premium 1792, not the 1793 the claim
states (the claim rounds an intermediate product; the exact combined factor
is 1.46 × 1.3 × 1.18 = 2.23964, and round(800 × 2.23964) = round(1791.712)
= 1792). -/
theorem C2_premium_1793_counterexample :
    (rateAutoLiabilityForDriver driverScenarioA 800).1 = 1792 ∧
    (rateAutoLiabilityForDriver driverScenarioA 800).1 ≠ 1793 := by
  refine ⟨?_, ?_⟩ <;>
    norm_num [rateAutoLiabilityForDriver, scoreDriverRisk, driverScenarioA, clamp, mathRound]

/-- C2 (amended): for the Scenario A driver, score is 73 with factors
age_lt_25 = 1.3 and cdl_lt_1 = 1.18, the score factor is
clamp(73/50, 0.6, 2.0) = 1.46, the combined factor is
1.46 × 1.3 × 1.18 = 2.23964 exactly, and the premium is
round(800 × 2.23964) = 1792. -/
theorem C2_scenarioA_amended :
    (scoreDriverRisk driverScenarioA).1 = 73 ∧
    (scoreDriverRisk driverScenarioA).2 = [("age_lt_25", (1.3 : ℚ)), ("cdl_lt_1", (1.18 : ℚ))] ∧
    clamp (73 / 50) 0.6 2.0 = 1.46 ∧
    ((1.46 : ℚ) * 1.3 * 1.18 = 2.23964) ∧
    rateAutoLiabilityForDriver driverScenarioA 800 =
      (1792, [("scoreFactor", (1.46 : ℚ)), ("age_lt_25", (1.3 : ℚ)), ("cdl_lt_1", (1.18 : ℚ))]) := by
  refine ⟨?_, ?_, ?_, ?_, ?_⟩ <;>
    norm_num [rateAutoLiabilityForDriver, scoreDriverRisk, driverScenarioA, clamp, mathRound]

/-- C8: the engine is deterministic in the submission — two runs with the same
`Submission` (and different freshly generated quote ids) agree on `perDriver`,
`perVehicle`, `lines`, `totalPremium`, `riskMatrix`, and `companyName`; only
`quoteId` reflects the generated id. -/
theorem C8_deterministic (s : Submission) (u₁ u₂ : String) :
    (quoteSubmission s u₁).perDriver = (quoteSubmission s u₂).perDriver ∧
    (quoteSubmission s u₁).perVehicle = (quoteSubmission s u₂).perVehicle ∧
    (quoteSubmission s u₁).lines = (quoteSubmission s u₂).lines ∧
    (quoteSubmission s u₁).totalPremium = (quoteSubmission s u₂).totalPremium ∧
    (quoteSubmission s u₁).riskMatrix = (quoteSubmission s u₂).riskMatrix ∧
    (quoteSubmission s u₁).companyName = (quoteSubmission s u₂).companyName :=
  ⟨rfl, rfl, rfl, rfl, rfl, rfl⟩

end InsuranceRater

namespace InsuranceRater

/-! ### Vehicle line emission -/

theorem rateVehicleLines_map_line (v : Vehicle) (t : List Trailer)
    (c : CoverageSelection) (o : OperationalFactors) :
    (rateVehicleLines v t c o).map (fun l => l.line) =
      [LineOfBusiness.AutoLiability, LineOfBusiness.GeneralLiability]
      ++ (if c.cargoLimitPerVehicle > 0 then [LineOfBusiness.MotorTruckCargo] else [])
      ++ (if c.reeferCoverage &&
            t.any (fun tr => tr.refrigerated || decide (tr.trailerType = TrailerType.Reefer))
          then [LineOfBusiness.ReeferBreakdown] else [])
      ++ (if c.trailerInterchange then [LineOfBusiness.TrailerInterchange] else []) := by
  unfold rateVehicleLines
  dsimp only
  split_ifs <;> rfl

/-- C6: per vehicle, AutoLiability and GeneralLiability are always emitted;
MotorTruckCargo exactly when the cargo limit is positive; ReeferBreakdown
exactly when reefer coverage is selected and some trailer in the supplied
trailer list (the submission's full, fleet-wide list — `quoteSubmission`
passes `submission.trailers` to every vehicle) is refrigerated or of type
Reefer; TrailerInterchange exactly when selected.  In particular, with no
refrigerated trailer anywhere, `reeferCoverage = true` emits no
ReeferBreakdown line. -/
theorem C6_emitted_lines (s : Submission) (u : String) (v : Vehicle) (t : List Trailer)
    (c : CoverageSelection) (o : OperationalFactors) :
    (quoteSubmission s u).perVehicle = s.vehicles.map (fun w =>
      ⟨w.id, rateVehicleLines w s.trailers s.coverages s.operationalFactors⟩)
    ∧ LineOfBusiness.AutoLiability ∈ (rateVehicleLines v t c o).map (fun l => l.line)
    ∧ LineOfBusiness.GeneralLiability ∈ (rateVehicleLines v t c o).map (fun l => l.line)
    ∧ (LineOfBusiness.MotorTruckCargo ∈ (rateVehicleLines v t c o).map (fun l => l.line)
        ↔ c.cargoLimitPerVehicle > 0)
    ∧ (LineOfBusiness.ReeferBreakdown ∈ (rateVehicleLines v t c o).map (fun l => l.line)
        ↔ (c.reeferCoverage = true ∧ ∃ tr ∈ t, tr.refrigerated = true ∨ tr.trailerType = TrailerType.Reefer))
    ∧ (LineOfBusiness.TrailerInterchange ∈ (rateVehicleLines v t c o).map (fun l => l.line)
        ↔ c.trailerInterchange = true) := by
  refine ⟨rfl, ?_, ?_, ?_, ?_, ?_⟩ <;>
    rw [rateVehicleLines_map_line] <;> split_ifs <;>
      simp_all [List.any_eq_true]

end InsuranceRater

namespace InsuranceRater

/-! ### Risk matrix -/

theorem riskTier_spec (x : ℚ) :
    ((if x < 35 then RiskTier.Low else if x < 65 then RiskTier.Moderate
      else if x < 85 then RiskTier.High else RiskTier.Severe) = RiskTier.Low ↔ x < 35)
    ∧ ((if x < 35 then RiskTier.Low else if x < 65 then RiskTier.Moderate
      else if x < 85 then RiskTier.High else RiskTier.Severe) = RiskTier.Moderate ↔ 35 ≤ x ∧ x < 65)
    ∧ ((if x < 35 then RiskTier.Low else if x < 65 then RiskTier.Moderate
      else if x < 85 then RiskTier.High else RiskTier.Severe) = RiskTier.High ↔ 65 ≤ x ∧ x < 85)
    ∧ ((if x < 35 then RiskTier.Low else if x < 65 then RiskTier.Moderate
      else if x < 85 then RiskTier.High else RiskTier.Severe) = RiskTier.Severe ↔ 85 ≤ x) := by
  split_ifs <;> refine ⟨?_, ?_, ?_, ?_⟩ <;> simp <;> first
    | linarith
    | (constructor <;> linarith)
    | (rintro ⟨a, b⟩; linarith)
    | (intro a; linarith)

/-- Closed form of `buildRiskMatrix`'s overall score and tier selection. -/
theorem buildRiskMatrix_overallScore (s : Submission) :
    (buildRiskMatrix s).overallScore =
      clamp (((buildRiskMatrix s).cells.foldl (fun a c => a + c.score) 0) / (5 * 5 * 3) * 100) 0 100
    ∧ (buildRiskMatrix s).riskTier =
      (if (buildRiskMatrix s).overallScore < 35 then RiskTier.Low
       else if (buildRiskMatrix s).overallScore < 65 then RiskTier.Moderate
       else if (buildRiskMatrix s).overallScore < 85 then RiskTier.High
       else RiskTier.Severe) := by
  unfold buildRiskMatrix
  dsimp only
  norm_num

/-- C7: for every submission, the overall score equals
`clamp((Σ cell scores)/(5·5·3) × 100, 0, 100)`, hence lies in [0,100], and the
risk tier is Low exactly below 35, Moderate on [35,65), High on [65,85), and
Severe at and above 85 (half-open intervals, lower bound inclusive). -/
theorem C7_overall_score_and_tier (s : Submission) :
    (buildRiskMatrix s).overallScore =
      clamp (((buildRiskMatrix s).cells.foldl (fun a c => a + c.score) 0) / (5 * 5 * 3) * 100) 0 100
    ∧ 0 ≤ (buildRiskMatrix s).overallScore ∧ (buildRiskMatrix s).overallScore ≤ 100
    ∧ ((buildRiskMatrix s).riskTier = RiskTier.Low ↔ (buildRiskMatrix s).overallScore < 35)
    ∧ ((buildRiskMatrix s).riskTier = RiskTier.Moderate ↔
        35 ≤ (buildRiskMatrix s).overallScore ∧ (buildRiskMatrix s).overallScore < 65)
    ∧ ((buildRiskMatrix s).riskTier = RiskTier.High ↔
        65 ≤ (buildRiskMatrix s).overallScore ∧ (buildRiskMatrix s).overallScore < 85)
    ∧ ((buildRiskMatrix s).riskTier = RiskTier.Severe ↔ 85 ≤ (buildRiskMatrix s).overallScore) := by
  obtain ⟨h1, h2⟩ := buildRiskMatrix_overallScore s
  obtain ⟨t1, t2, t3, t4⟩ := riskTier_spec (buildRiskMatrix s).overallScore
  refine ⟨h1, ?_, ?_, ?_, ?_, ?_, ?_⟩
  · rw [h1]; exact left_le_clamp _ _ _
  · rw [h1]; exact clamp_le_right _ _ _ (by norm_num)
  · rw [h2]; exact t1
  · rw [h2]; exact t2
  · rw [h2]; exact t3
  · rw [h2]; exact t4

theorem foldl_count_le (l : List Vehicle) (a : ℚ) :
    l.foldl (fun a v => a + (if v.vehicleAge > 10 then 1 else 0)) a ≤ a + l.length := by
  induction l generalizing a with
  | nil => simp
  | cons v l ih =>
    rw [List.foldl_cons]
    refine (ih _).trans ?_
    split_ifs <;> norm_num
    linarith

theorem equipment_ratio_le_one (l : List Vehicle) :
    (l.foldl (fun a v => a + (if v.vehicleAge > 10 then 1 else 0)) 0 : ℚ) /
      Max.max 1 (l.length : ℚ) ≤ 1 := by
  rw [div_le_one (lt_of_lt_of_le one_pos (le_max_left _ _))]
  refine (foldl_count_le l 0).trans ?_
  rw [zero_add]
  exact le_max_right _ _

/-- C10: the Equipment cell's frequency is always exactly 1: the ratio
`count(vehicleAge>10)/max(1,vehicleCount)` never exceeds 1, so the clamp
into [1,5] raises it to its lower bound, and the Equipment cell's score
equals its severity alone (5 with a Tanker trailer, else 2). -/
theorem C10_equipment_frequency_one (s : Submission) :
    ((s.vehicles.foldl (fun a v => a + (if v.vehicleAge > 10 then 1 else 0)) 0 : ℚ) /
        Max.max 1 (s.vehicles.length : ℚ) ≤ 1)
    ∧ (buildRiskMatrix s).cells.get? 1 =
        some ⟨"Equipment", 1,
          (if s.trailers.any (fun t => decide (t.trailerType = TrailerType.Tanker)) then 5 else 2),
          (if s.trailers.any (fun t => decide (t.trailerType = TrailerType.Tanker)) then 5 else 2)⟩ := by
  refine ⟨equipment_ratio_le_one s.vehicles, ?_⟩
  unfold buildRiskMatrix
  dsimp only
  have hfreq : clamp ((s.vehicles.foldl (fun a v => a + (if v.vehicleAge > 10 then 1 else 0)) 0 : ℚ) /
      Max.max 1 (s.vehicles.length : ℚ)) 1 5 = 1 :=
    clamp_eq_left _ _ _ (equipment_ratio_le_one s.vehicles) (by norm_num)
  rw [hfreq]
  norm_num

/-- C9: with empty driver and vehicle lists both per-count divisions use
denominator `max(1, count) = 1`, the Driver Behavior and Equipment
frequencies are 1, every cell is a defined rational, and the overall score
is a defined value in [0,100]. -/
theorem C9_empty_fleet (s : Submission) (h1 : s.drivers = []) (h2 : s.vehicles = []) :
    Max.max 1 ((s.drivers.length : ℚ)) = 1
    ∧ Max.max 1 ((s.vehicles.length : ℚ)) = 1
    ∧ (buildRiskMatrix s).cells.map (fun c => c.frequency) =
        [1, 1, if s.operationalFactors.avgMilesPerYearPerUnit > 80000 then 4 else 2]
    ∧ (buildRiskMatrix s).cells.map (fun c => c.severity) =
        [2, if s.trailers.any (fun t => decide (t.trailerType = TrailerType.Tanker)) then 5 else 2,
         if CargoType.Hazmat ∈ s.operationalFactors.cargoTypeMix then 5 else 3]
    ∧ 0 ≤ (buildRiskMatrix s).overallScore ∧ (buildRiskMatrix s).overallScore ≤ 100 := by
  have hclamp : clamp ((0 : ℚ) / Max.max 1 ((0 : ℕ) : ℚ)) 1 5 = 1 := by
    norm_num [clamp]
  refine ⟨by rw [h1]; norm_num, by rw [h2]; norm_num, ?_, ?_, ?_, ?_⟩
  · unfold buildRiskMatrix
    dsimp only
    rw [h1, h2]
    simp only [List.foldl_nil, List.length_nil, List.any_nil, Bool.false_eq_true, if_false,
      List.map_cons, List.map_nil, hclamp]
  · unfold buildRiskMatrix
    dsimp only
    rw [h1, h2]
    simp only [List.foldl_nil, List.length_nil, List.any_nil, Bool.false_eq_true, if_false,
      List.map_cons, List.map_nil, hclamp]
  · rw [(buildRiskMatrix_overallScore s).1]
    exact left_le_clamp _ _ _
  · rw [(buildRiskMatrix_overallScore s).1]
    exact clamp_le_right _ _ _ (by norm_num)

/-- A submission with no drivers and no vehicles (Scenario D). -/
def emptyFleetSubmission : Submission where
  company := ⟨"Acme Trucking", none, none, "TX", 5, 1, []⟩
  drivers := []
  vehicles := []
  trailers := []
  coverages := ⟨1000000, 0, 1000000, 0, 100000, 1000, false, 25000, 2500, false, 40000, 1000⟩
  operationalFactors := ⟨60000, 1, [CargoType.General]⟩

/-- C9 witness: the empty-fleet submission instantiates `C9_empty_fleet`. -/
theorem C9_empty_fleet_witness :
    Max.max 1 ((emptyFleetSubmission.drivers.length : ℚ)) = 1
    ∧ Max.max 1 ((emptyFleetSubmission.vehicles.length : ℚ)) = 1
    ∧ (buildRiskMatrix emptyFleetSubmission).cells.map (fun c => c.frequency) =
        [1, 1, if emptyFleetSubmission.operationalFactors.avgMilesPerYearPerUnit > 80000 then 4 else 2]
    ∧ (buildRiskMatrix emptyFleetSubmission).cells.map (fun c => c.severity) =
        [2, if emptyFleetSubmission.trailers.any (fun t => decide (t.trailerType = TrailerType.Tanker)) then 5 else 2,
         if CargoType.Hazmat ∈ emptyFleetSubmission.operationalFactors.cargoTypeMix then 5 else 3]
    ∧ 0 ≤ (buildRiskMatrix emptyFleetSubmission).overallScore
    ∧ (buildRiskMatrix emptyFleetSubmission).overallScore ≤ 100 :=
  C9_empty_fleet emptyFleetSubmission rfl rfl

end InsuranceRater

namespace InsuranceRater

/-! ### The ES `Map` used for aggregation -/

theorem find?_update_self (m : LineMap) (k : LineOfBusiness) (v : AggEntry) :
    (m.map (fun p => if p.1 = k then (k, v) else p)).find? (fun p => decide (p.1 = k)) =
      if m.any (fun p => decide (p.1 = k)) then some (k, v) else none := by
  induction m with
  | nil => rfl
  | cons p m ih =>
    simp only [List.map_cons, List.any_cons]
    by_cases hp : p.1 = k
    · rw [if_pos hp, List.find?_cons_of_pos _ (by simp), if_pos (by simp [hp])]
    · rw [if_neg hp, List.find?_cons_of_neg _ (by simp [hp]), ih]
      have hd : decide (p.1 = k) = false := decide_eq_false hp
      simp only [hd, Bool.false_or]

theorem find?_update_ne (m : LineMap) (k k' : LineOfBusiness) (v : AggEntry) (h : k' ≠ k) :
    (m.map (fun p => if p.1 = k then (k, v) else p)).find? (fun p => decide (p.1 = k')) =
      m.find? (fun p => decide (p.1 = k')) := by
  have hkk : ¬(k = k') := fun hkk => h hkk.symm
  induction m with
  | nil => rfl
  | cons p m ih =>
    simp only [List.map_cons]
    by_cases hp : p.1 = k
    · rw [if_pos hp, List.find?_cons_of_neg _ (by simp [hkk]),
        List.find?_cons_of_neg _ (by simp [hp, hkk]), ih]
    · rw [if_neg hp]
      by_cases hq : p.1 = k'
      · rw [List.find?_cons_of_pos _ (by simp [hq]), List.find?_cons_of_pos _ (by simp [hq])]
      · rw [List.find?_cons_of_neg _ (by simp [hq]), List.find?_cons_of_neg _ (by simp [hq]), ih]

theorem mapGet_mapSet (m : LineMap) (k k' : LineOfBusiness) (v : AggEntry) :
    mapGet (mapSet m k v) k' = if k' = k then some v else mapGet m k' := by
  unfold mapSet
  by_cases hany : m.any (fun p => decide (p.1 = k)) = true
  · rw [if_pos hany]
    by_cases hk : k' = k
    · subst hk
      rw [if_pos rfl, mapGet, find?_update_self, if_pos hany]
      rfl
    · rw [if_neg hk, mapGet, find?_update_ne m k k' v hk, mapGet]
  · rw [if_neg hany]
    by_cases hk : k' = k
    · subst hk
      have hnone : m.find? (fun p => decide (p.1 = k')) = none := by
        rw [List.find?_eq_none]
        intro p hp
        simp only [decide_eq_true_eq]
        intro hpk
        exact hany (List.any_eq_true.mpr ⟨p, hp, by simp [hpk]⟩)
      rw [if_pos rfl, mapGet, List.find?_append, hnone]
      simp
    · have hkk : ¬(k = k') := fun hkk => hk hkk.symm
      rw [if_neg hk, mapGet, List.find?_append, mapGet]
      have hsingle : ([((k, v) : LineOfBusiness × AggEntry)].find? (fun p => decide (p.1 = k'))) = none := by
        simp [hkk]
      rw [hsingle]
      cases m.find? (fun p => decide (p.1 = k')) <;> rfl

/-! ### Aggregation -/

/-- The effect of one aggregation step on a single key's entry. -/
def aggStepEntry (o : Option AggEntry) (l : LinePremiumBreakdown) : Option AggEntry :=
  let prev := o.getD ⟨0, l.baseRate, []⟩
  some ⟨prev.premium + l.premium, l.baseRate, prev.factors⟩

theorem mapGet_aggStep (m : LineMap) (l : LinePremiumBreakdown) (k : LineOfBusiness) :
    mapGet (aggStep m l) k =
      if l.line = k then aggStepEntry (mapGet m k) l else mapGet m k := by
  unfold aggStep aggStepEntry
  by_cases hl : l.line = k
  · rw [if_pos hl, ← hl, mapGet_mapSet, if_pos rfl]
  · rw [if_neg hl, mapGet_mapSet, if_neg (fun h => hl h.symm)]

theorem mapGet_foldl_aggStep (flat : List LinePremiumBreakdown) (m : LineMap) (k : LineOfBusiness) :
    mapGet (flat.foldl aggStep m) k =
      (flat.filter (fun l => decide (l.line = k))).foldl aggStepEntry (mapGet m k) := by
  induction flat generalizing m with
  | nil => rfl
  | cons l flat ih =>
    rw [List.foldl_cons, ih]
    by_cases hl : l.line = k
    · rw [List.filter_cons_of_pos (by simp [hl]), List.foldl_cons, mapGet_aggStep, if_pos hl]
    · rw [List.filter_cons_of_neg (by simp [hl]), mapGet_aggStep, if_neg hl]

theorem foldl_aggStepEntry_some (l : List LinePremiumBreakdown) (e : AggEntry) :
    l.foldl aggStepEntry (some e) =
      some ⟨e.premium + (l.map (fun x => x.premium)).sum,
            (l.map (fun x => x.baseRate)).getLastD e.baseRate, e.factors⟩ := by
  induction l generalizing e with
  | nil => simp [List.getLastD]
  | cons x l ih =>
    rw [List.foldl_cons]
    show l.foldl aggStepEntry (some ⟨e.premium + x.premium, x.baseRate, e.factors⟩) = _
    rw [ih]
    simp only [List.map_cons, List.sum_cons, List.getLastD_cons, add_assoc]

theorem foldl_aggStepEntry_none (l : List LinePremiumBreakdown) (h : l ≠ []) :
    l.foldl aggStepEntry none =
      some ⟨(l.map (fun x => x.premium)).sum,
            (l.map (fun x => x.baseRate)).getLastD 0, []⟩ := by
  cases l with
  | nil => exact absurd rfl h
  | cons x l =>
    rw [List.foldl_cons]
    show l.foldl aggStepEntry (some ⟨0 + x.premium, x.baseRate, []⟩) = _
    rw [foldl_aggStepEntry_some]
    simp only [List.map_cons, List.sum_cons, List.getLastD_cons, zero_add]

theorem aggregateLines_eq_flat (pv : List VehiclePremiumDetail) :
    aggregateLines pv = (pv.flatMap (fun v => v.lines)).foldl aggStep [] := by
  have main : ∀ (pv : List VehiclePremiumDetail) (m : LineMap),
      pv.foldl (fun m v => v.lines.foldl aggStep m) m =
        (pv.flatMap (fun v => v.lines)).foldl aggStep m := by
    intro pv
    induction pv with
    | nil => intro m; rfl
    | cons v pv ih =>
      intro m
      rw [List.foldl_cons, ih, List.flatMap_cons, List.foldl_append]
  exact main pv []

theorem mapGet_aggregateLines_none (pv : List VehiclePremiumDetail) (k : LineOfBusiness)
    (h : ((pv.flatMap (fun v => v.lines)).filter (fun l => decide (l.line = k))) = []) :
    mapGet (aggregateLines pv) k = none := by
  rw [aggregateLines_eq_flat, mapGet_foldl_aggStep, h]
  rfl

theorem mapGet_aggregateLines_some (pv : List VehiclePremiumDetail) (k : LineOfBusiness)
    (h : ((pv.flatMap (fun v => v.lines)).filter (fun l => decide (l.line = k))) ≠ []) :
    mapGet (aggregateLines pv) k =
      some ⟨((((pv.flatMap (fun v => v.lines)).filter (fun l => decide (l.line = k))).map
                (fun x => x.premium)).sum),
            ((((pv.flatMap (fun v => v.lines)).filter (fun l => decide (l.line = k))).map
                (fun x => x.baseRate)).getLastD 0),
            []⟩ := by
  rw [aggregateLines_eq_flat, mapGet_foldl_aggStep]
  exact foldl_aggStepEntry_none _ h

theorem keys_update (m : LineMap) (k : LineOfBusiness) (v : AggEntry) :
    (m.map (fun p => if p.1 = k then (k, v) else p)).map Prod.fst = m.map Prod.fst := by
  induction m with
  | nil => rfl
  | cons p m ih =>
    simp only [List.map_cons, ih]
    by_cases hp : p.1 = k
    · rw [if_pos hp, hp]
    · rw [if_neg hp]

theorem keysNodup_mapSet (m : LineMap) (k : LineOfBusiness) (v : AggEntry)
    (h : (m.map Prod.fst).Nodup) : ((mapSet m k v).map Prod.fst).Nodup := by
  unfold mapSet
  split_ifs with hany
  · rw [keys_update]
    exact h
  · rw [List.map_append]
    refine List.Nodup.append h (List.nodup_singleton k) ?_
    intro a ha hb
    simp only [List.map_cons, List.map_nil, List.mem_singleton] at hb
    subst hb
    obtain ⟨p, hp, hpk⟩ := List.mem_map.mp ha
    exact hany (List.any_eq_true.mpr ⟨p, hp, by simp [hpk]⟩)

theorem keysNodup_aggregateLines (pv : List VehiclePremiumDetail) :
    ((aggregateLines pv).map Prod.fst).Nodup := by
  rw [aggregateLines_eq_flat]
  have main : ∀ (flat : List LinePremiumBreakdown) (m : LineMap),
      (m.map Prod.fst).Nodup → (((flat.foldl aggStep m)).map Prod.fst).Nodup := by
    intro flat
    induction flat with
    | nil => exact fun m h => h
    | cons l flat ih =>
      intro m h
      rw [List.foldl_cons]
      exact ih _ (keysNodup_mapSet _ _ _ h)
  exact main _ [] (by simp)

theorem find?_lines_toBk (m : LineMap) (k : LineOfBusiness) :
    ((m.map (fun p => (⟨p.1, p.2.premium, p.2.baseRate, p.2.factors⟩ : LinePremiumBreakdown))).find?
        (fun l => decide (l.line = k))) =
      (mapGet m k).map (fun e => (⟨k, e.premium, e.baseRate, e.factors⟩ : LinePremiumBreakdown)) := by
  induction m with
  | nil => rfl
  | cons p m ih =>
    by_cases hp : p.1 = k
    · rw [List.map_cons, List.find?_cons_of_pos _ (by simp [hp]), mapGet,
        List.find?_cons_of_pos _ (by simp [hp])]
      subst hp
      rfl
    · have hcons : mapGet (p :: m) k = mapGet m k := by
        rw [mapGet, List.find?_cons_of_neg _ (by simp [hp]), mapGet]
      rw [List.map_cons, List.find?_cons_of_neg _ (by simp [hp]), ih, hcons]

theorem foldl_add_premiumQ (l : List LinePremiumBreakdown) (a : ℤ) :
    l.foldl (fun a x => a + (x.premium : ℚ)) (a : ℚ) =
      ((a + (l.map (fun x => x.premium)).sum : ℤ) : ℚ) := by
  induction l generalizing a with
  | nil => simp
  | cons x l ih =>
    rw [List.foldl_cons]
    have hx : ((a : ℚ) + (x.premium : ℚ)) = ((a + x.premium : ℤ) : ℚ) := by push_cast; ring
    rw [hx, ih]
    simp only [List.map_cons, List.sum_cons]
    congr 1
    ring

theorem foldl_add_premiumZ (l : List DriverPremiumDetail) (a : ℤ) :
    l.foldl (fun a d => a + d.premium) a = a + (l.map (fun d => d.premium)).sum := by
  induction l generalizing a with
  | nil => simp
  | cons x l ih =>
    rw [List.foldl_cons, ih]
    simp [add_assoc]

end InsuranceRater

namespace InsuranceRater

/-! ### The orchestrator's intermediate values -/

/-- The per-driver details computed inside `quoteSubmission`. -/
def quotePerDriver (s : Submission) : List DriverPremiumDetail :=
  s.drivers.map (fun driver =>
    ⟨driver.id, driver.name, (scoreDriverRisk driver).1,
     (rateAutoLiabilityForDriver driver 800).1, (rateAutoLiabilityForDriver driver 800).2⟩)

/-- The per-vehicle details computed inside `quoteSubmission`. -/
def quotePerVehicle (s : Submission) : List VehiclePremiumDetail :=
  s.vehicles.map (fun v =>
    ⟨v.id, rateVehicleLines v s.trailers s.coverages s.operationalFactors⟩)

/-- The aggregated line map of `quoteSubmission` before the driver AL step. -/
def quoteLineTotals (s : Submission) : LineMap := aggregateLines (quotePerVehicle s)

/-- The aggregated line map of `quoteSubmission` after the driver AL step. -/
def quoteFinalTotals (s : Submission) : LineMap :=
  match mapGet (quoteLineTotals s) LineOfBusiness.AutoLiability with
  | some alPrev =>
    mapSet (quoteLineTotals s) LineOfBusiness.AutoLiability
      ⟨alPrev.premium + (quotePerDriver s).foldl (fun a d => a + d.premium) 0,
       alPrev.baseRate, alPrev.factors⟩
  | none =>
    mapSet (quoteLineTotals s) LineOfBusiness.AutoLiability
      ⟨(quotePerDriver s).foldl (fun a d => a + d.premium) 0, 800, []⟩

theorem quoteSubmission_perDriver (s : Submission) (u : String) :
    (quoteSubmission s u).perDriver = quotePerDriver s := rfl

theorem quoteSubmission_perVehicle (s : Submission) (u : String) :
    (quoteSubmission s u).perVehicle = quotePerVehicle s := rfl

theorem quoteSubmission_lines (s : Submission) (u : String) :
    (quoteSubmission s u).lines =
      (quoteFinalTotals s).map (fun p => ⟨p.1, p.2.premium, p.2.baseRate, p.2.factors⟩) := rfl

theorem quoteSubmission_totalPremium (s : Submission) (u : String) :
    (quoteSubmission s u).totalPremium =
      mathRound ((quoteSubmission s u).lines.foldl (fun a l => a + (l.premium : ℚ)) 0) := rfl

/-- C4: the aggregated `lines` list never holds two entries with the same
LineOfBusiness, and `totalPremium` equals the exact integer sum of the
aggregated line premiums (every line premium is already an integer, so the
final `Math.round` is the identity). -/
theorem C4_no_duplicates_and_total (s : Submission) (u : String) :
    ((quoteSubmission s u).lines.map (fun l => l.line)).Nodup
    ∧ (quoteSubmission s u).totalPremium =
        ((quoteSubmission s u).lines.map (fun l => l.premium)).sum := by
  constructor
  · rw [quoteSubmission_lines, List.map_map]
    have hkeys : ((quoteFinalTotals s).map Prod.fst).Nodup := by
      unfold quoteFinalTotals
      cases hm : mapGet (quoteLineTotals s) LineOfBusiness.AutoLiability with
      | none => exact keysNodup_mapSet _ _ _ (keysNodup_aggregateLines _)
      | some e => exact keysNodup_mapSet _ _ _ (keysNodup_aggregateLines _)
    exact hkeys
  · rw [quoteSubmission_totalPremium,
      show ((0 : ℚ)) = (((0 : ℤ)) : ℚ) by norm_num,
      foldl_add_premiumQ, mathRound_intCast, zero_add]

/-- C3: the aggregated AutoLiability premium is the sum of all per-vehicle
AutoLiability premiums plus the sum of all per-driver auto-liability premiums
(each driver rated at base rate 800); with no vehicles the AutoLiability entry
is still created, holding the driver total with baseRate 800 and an empty
factor map. -/
theorem C3_autoliability_total (s : Submission) (u : String) :
    (((quoteSubmission s u).lines.find? (fun l => decide (l.line = LineOfBusiness.AutoLiability))).map
        (fun l => l.premium)) =
      some ((((((quoteSubmission s u).perVehicle.flatMap (fun v => v.lines)).filter
            (fun l => decide (l.line = LineOfBusiness.AutoLiability))).map (fun l => l.premium)).sum)
        + (((quoteSubmission s u).perDriver.map (fun d => d.premium)).sum))
    ∧ ((quoteSubmission s u).perDriver.map (fun d => d.premium) =
        s.drivers.map (fun d => (rateAutoLiabilityForDriver d 800).1))
    ∧ (s.vehicles = [] →
        (quoteSubmission s u).lines.find? (fun l => decide (l.line = LineOfBusiness.AutoLiability)) =
          some ⟨LineOfBusiness.AutoLiability,
                ((quoteSubmission s u).perDriver.map (fun d => d.premium)).sum, 800, []⟩) := by
  rw [quoteSubmission_lines, quoteSubmission_perVehicle, quoteSubmission_perDriver,
    find?_lines_toBk]
  have hD : (quotePerDriver s).foldl (fun a d => a + d.premium) 0 =
      ((quotePerDriver s).map (fun d => d.premium)).sum := by
    rw [foldl_add_premiumZ, zero_add]
  have hDmap : (quotePerDriver s).map (fun d => d.premium) =
      s.drivers.map (fun d => (rateAutoLiabilityForDriver d 800).1) := by
    unfold quotePerDriver
    rw [List.map_map]
    rfl
  by_cases hfl : (((quotePerVehicle s).flatMap (fun v => v.lines)).filter
      (fun l => decide (l.line = LineOfBusiness.AutoLiability))) = []
  · have hnone : mapGet (quoteLineTotals s) LineOfBusiness.AutoLiability = none :=
      mapGet_aggregateLines_none _ _ hfl
    have hfin : quoteFinalTotals s =
        mapSet (quoteLineTotals s) LineOfBusiness.AutoLiability
          ⟨(quotePerDriver s).foldl (fun a d => a + d.premium) 0, 800, []⟩ := by
      unfold quoteFinalTotals
      rw [hnone]
    have hget : mapGet (quoteFinalTotals s) LineOfBusiness.AutoLiability =
        some ⟨(quotePerDriver s).foldl (fun a d => a + d.premium) 0, 800, []⟩ := by
      rw [hfin, mapGet_mapSet, if_pos rfl]
    refine ⟨?_, hDmap, ?_⟩
    · rw [hget, hfl, hD]
      simp only [Option.map_some', List.map_nil, List.sum_nil, zero_add]
    · intro _
      rw [hget, hD]
      simp only [Option.map_some']
  · have hsome := mapGet_aggregateLines_some _ _ hfl
    have hfin : quoteFinalTotals s =
        mapSet (quoteLineTotals s) LineOfBusiness.AutoLiability
          ⟨((((quotePerVehicle s).flatMap (fun v => v.lines)).filter
                (fun l => decide (l.line = LineOfBusiness.AutoLiability))).map
              (fun x => x.premium)).sum
            + (quotePerDriver s).foldl (fun a d => a + d.premium) 0,
           ((((quotePerVehicle s).flatMap (fun v => v.lines)).filter
                (fun l => decide (l.line = LineOfBusiness.AutoLiability))).map
              (fun x => x.baseRate)).getLastD 0,
           []⟩ := by
      unfold quoteFinalTotals
      rw [show mapGet (quoteLineTotals s) LineOfBusiness.AutoLiability =
          some ⟨((((quotePerVehicle s).flatMap (fun v => v.lines)).filter
                (fun l => decide (l.line = LineOfBusiness.AutoLiability))).map
              (fun x => x.premium)).sum,
            ((((quotePerVehicle s).flatMap (fun v => v.lines)).filter
                (fun l => decide (l.line = LineOfBusiness.AutoLiability))).map
              (fun x => x.baseRate)).getLastD 0,
            []⟩ from hsome]
    have hget : mapGet (quoteFinalTotals s) LineOfBusiness.AutoLiability =
        some ⟨((((quotePerVehicle s).flatMap (fun v => v.lines)).filter
              (fun l => decide (l.line = LineOfBusiness.AutoLiability))).map
            (fun x => x.premium)).sum
          + (quotePerDriver s).foldl (fun a d => a + d.premium) 0,
         ((((quotePerVehicle s).flatMap (fun v => v.lines)).filter
              (fun l => decide (l.line = LineOfBusiness.AutoLiability))).map
            (fun x => x.baseRate)).getLastD 0,
         []⟩ := by
      rw [hfin, mapGet_mapSet, if_pos rfl]
    refine ⟨?_, hDmap, ?_⟩
    · rw [hget, hD]
      simp only [Option.map_some']
    · intro hveh
      exfalso
      apply hfl
      have hpv : quotePerVehicle s = [] := by
        unfold quotePerVehicle
        rw [hveh]
        rfl
      rw [hpv]
      rfl

/-- Submission with no vehicles but one driver, exercising the
driver-only AutoLiability entry of C3. -/
def driverOnlySubmission : Submission where
  company := ⟨"Solo Driver Co", none, none, "TX", 2, 1, []⟩
  drivers := [⟨"d1", "Scenario A", 22, 0, 0, 0, 0⟩]
  vehicles := []
  trailers := []
  coverages := ⟨1000000, 0, 1000000, 0, 100000, 1000, false, 25000, 2500, false, 40000, 1000⟩
  operationalFactors := ⟨60000, 1, [CargoType.General]⟩

/-- C3 witness: `C3_autoliability_total` instantiated at a vehicle-free
submission, with the inner implication discharged. -/
theorem C3_autoliability_total_witness :
    (((quoteSubmission driverOnlySubmission "q").lines.find?
        (fun l => decide (l.line = LineOfBusiness.AutoLiability))).map (fun l => l.premium)) =
      some ((((((quoteSubmission driverOnlySubmission "q").perVehicle.flatMap (fun v => v.lines)).filter
            (fun l => decide (l.line = LineOfBusiness.AutoLiability))).map (fun l => l.premium)).sum)
        + (((quoteSubmission driverOnlySubmission "q").perDriver.map (fun d => d.premium)).sum))
    ∧ ((quoteSubmission driverOnlySubmission "q").perDriver.map (fun d => d.premium) =
        driverOnlySubmission.drivers.map (fun d => (rateAutoLiabilityForDriver d 800).1))
    ∧ ((quoteSubmission driverOnlySubmission "q").lines.find?
        (fun l => decide (l.line = LineOfBusiness.AutoLiability)) =
          some ⟨LineOfBusiness.AutoLiability,
                ((quoteSubmission driverOnlySubmission "q").perDriver.map (fun d => d.premium)).sum,
                800, []⟩) :=
  ⟨(C3_autoliability_total driverOnlySubmission "q").1,
   (C3_autoliability_total driverOnlySubmission "q").2.1,
   (C3_autoliability_total driverOnlySubmission "q").2.2 rfl⟩

end InsuranceRater

namespace InsuranceRater

/-- A submission with two vehicles (both emit AutoLiability) and no drivers. -/
def twoVehicleSubmission : Submission where
  company := ⟨"Two Truck Co", none, none, "TX", 3, 1, []⟩
  drivers := []
  vehicles := [⟨"v1", none, none, none, none, VehicleType.Tractor, 0, 10000, 50⟩,
               ⟨"v2", none, none, none, none, VehicleType.BoxTruck, 0, 10000, 50⟩]
  trailers := []
  coverages := ⟨1000000, 0, 1000000, 0, 0, 1000, false, 25000, 2500, false, 40000, 1000⟩
  operationalFactors := ⟨60000, 1, [CargoType.General]⟩

set_option maxRecDepth 2000 in
/-- C1 counterexample: for a submission with two vehicles both emitting
AutoLiability, the aggregated AutoLiability entry's factor map is the empty
map — not the second vehicle's factors: the merge keeps a copy of the
accumulator's previous factors (`{ ...prev.factors }`, initially `{}`) and
never copies the incoming line's factors. -/
theorem C1_last_vehicle_factors_counterexample :
    (((quoteSubmission twoVehicleSubmission "q").lines.find?
        (fun l => decide (l.line = LineOfBusiness.AutoLiability))).map (fun l => l.factors)
      = some [])
    ∧ ((((quoteSubmission twoVehicleSubmission "q").perVehicle.map (fun v => v.lines)).getD 1 []).find?
        (fun l => decide (l.line = LineOfBusiness.AutoLiability))).map (fun l => l.factors) =
        some [("ageFactor", (1 : ℚ)), ("gvwFactor", 1), ("radiusFactor", 1), ("geoFactor", 1)]
    ∧ (some ([] : Factors) ≠
        some [("ageFactor", (1 : ℚ)), ("gvwFactor", 1), ("radiusFactor", 1), ("geoFactor", 1)]) := by
  refine ⟨?_, ?_, ?_⟩ <;> with_unfolding_all decide

/-- C1 (amended): for every line of business with at least one contributing
per-vehicle line, the merged entry's premium is the sum of all contributing
premiums and its baseRate is taken from the last contributing line, while its
factor map is always the empty map (the merge copies the accumulator's
previous factors, which start empty, and discards the contributing lines'
factors). -/
theorem C1_merge_semantics_amended (pv : List VehiclePremiumDetail) (k : LineOfBusiness)
    (h : ((pv.flatMap (fun v => v.lines)).filter (fun l => decide (l.line = k))) ≠ []) :
    mapGet (aggregateLines pv) k =
      some ⟨((((pv.flatMap (fun v => v.lines)).filter (fun l => decide (l.line = k))).map
                (fun x => x.premium)).sum),
            ((((pv.flatMap (fun v => v.lines)).filter (fun l => decide (l.line = k))).map
                (fun x => x.baseRate)).getLastD 0),
            []⟩ :=
  mapGet_aggregateLines_some pv k h

/-- Concrete two-vehicle per-vehicle breakdown for the C1 witness. -/
def pvExample : List VehiclePremiumDetail :=
  [⟨"v1", [⟨LineOfBusiness.AutoLiability, 1500, 1500, [("ageFactor", 1)]⟩,
           ⟨LineOfBusiness.GeneralLiability, 500, 500, []⟩]⟩,
   ⟨"v2", [⟨LineOfBusiness.AutoLiability, 1800, 1500, [("ageFactor", (1.05 : ℚ))]⟩]⟩]

/-- C1 witness: `C1_merge_semantics_amended` instantiated at a concrete
two-vehicle breakdown in which both vehicles contribute AutoLiability. -/
theorem C1_merge_semantics_witness :
    ((pvExample.flatMap (fun v => v.lines)).filter
        (fun l => decide (l.line = LineOfBusiness.AutoLiability))) ≠ []
    ∧ mapGet (aggregateLines pvExample) LineOfBusiness.AutoLiability =
      some ⟨((((pvExample.flatMap (fun v => v.lines)).filter
                (fun l => decide (l.line = LineOfBusiness.AutoLiability))).map
                (fun x => x.premium)).sum),
            ((((pvExample.flatMap (fun v => v.lines)).filter
                (fun l => decide (l.line = LineOfBusiness.AutoLiability))).map
                (fun x => x.baseRate)).getLastD 0),
            []⟩ :=
  ⟨by with_unfolding_all decide,
   C1_merge_semantics_amended pvExample LineOfBusiness.AutoLiability (by with_unfolding_all decide)⟩

end InsuranceRater
